import Mathlib

set_option maxHeartbeats 1000000

/-
Shallow embedding of the stoic-python-core chain framework:
  src/chain/dispatch_base.py  (DispatchBase)
  src/chain/node_base.py      (NodeBase)
  src/chain/chain_helper.py   (ChainHelper)
Python object mutation is modelled by explicit state passing: each method
that mutates `self` returns the updated record (and its Python return value,
when it has one).  The opaque `Any` result payload is a type parameter `α`;
the `datetime` timestamp recorded by `make_valid` is an opaque `Nat` supplied
by the caller; the logging callback installed by `hook_logger` is opaque, so
only its presence is recorded, and `log` returns the list of messages it
forwards to the callback (empty when it forwards nothing).  The `sender`
argument threaded through `traverse`/`process` is opaque data that never
influences the router's control flow, so it is omitted from the embedding.
-/

namespace StoicChain

/- ---------------------------------------------------------------- -/
/- DispatchBase (src/chain/dispatch_base.py)                         -/
/- ---------------------------------------------------------------- -/

/-- State of a `DispatchBase` object; fields mirror `__init__` in order. -/
structure DispatchBase (α : Type) where
  is_consumable : Bool
  is_stateful : Bool
  is_consumed : Bool
  results : List α
  is_valid : Bool
  called_date_time : Option Nat
deriving DecidableEq

/-- Python `DispatchBase.__init__`: all flags false, no results, no timestamp. -/
def DispatchBase.new (α : Type) : DispatchBase α :=
  ⟨false, false, false, [], false, none⟩

/-- Python `DispatchBase.consume`: returns the Python boolean and the updated state. -/
def DispatchBase.consume {α : Type} (d : DispatchBase α) : Bool × DispatchBase α :=
  if d.is_consumable && !d.is_consumed then
    (true, { d with is_consumed := true })
  else
    (false, d)

/-- Python `DispatchBase.get_results`: `None` when fewer than one result is stored. -/
def DispatchBase.get_results {α : Type} (d : DispatchBase α) : Option (List α) :=
  if d.results.length < 1 then none else some d.results

/-- Python `DispatchBase.num_results`. -/
def DispatchBase.num_results {α : Type} (d : DispatchBase α) : Nat :=
  d.results.length

/-- Python `DispatchBase.set_result`: replace the results with a singleton when not
stateful, otherwise append. -/
def DispatchBase.set_result {α : Type} (d : DispatchBase α) (result : α) : DispatchBase α :=
  if !d.is_stateful then
    { d with results := [result] }
  else
    { d with results := d.results ++ [result] }

/-- Python `DispatchBase.make_consumable`. -/
def DispatchBase.make_consumable {α : Type} (d : DispatchBase α) : DispatchBase α :=
  { d with is_consumable := true }

/-- Python `DispatchBase.make_stateful`. -/
def DispatchBase.make_stateful {α : Type} (d : DispatchBase α) : DispatchBase α :=
  { d with is_stateful := true }

/-- Python `DispatchBase.make_valid`: the current UTC time is the opaque `t`. -/
def DispatchBase.make_valid {α : Type} (d : DispatchBase α) (t : Nat) : DispatchBase α :=
  { d with called_date_time := some t, is_valid := true }

/- ---------------------------------------------------------------- -/
/- NodeBase (src/chain/node_base.py)                                 -/
/- ---------------------------------------------------------------- -/

/-- Python truthiness of an `Optional[str]` field: `None` and the empty
string are falsy. -/
def strTruthy : Option String → Bool
  | none => false
  | some s => !s.isEmpty

/-- State of a `NodeBase` object plus its (abstract) `process` behaviour.
`process` acts on the dispatch it receives; the opaque `sender` argument
never influences the router and is omitted. -/
structure NodeBase (α : Type) where
  key : Option String
  version : Option String
  process : DispatchBase α → DispatchBase α

/-- Python `NodeBase.get_key`. -/
def NodeBase.get_key {α : Type} (n : NodeBase α) : Option String :=
  n.key

/-- Python `NodeBase.get_version`. -/
def NodeBase.get_version {α : Type} (n : NodeBase α) : Option String :=
  n.version

/-- Python `NodeBase.is_valid`: `bool(self._key) and bool(self._version)`. -/
def NodeBase.is_valid {α : Type} (n : NodeBase α) : Bool :=
  strTruthy n.key && strTruthy n.version

/-- Python `NodeBase.set_key`. -/
def NodeBase.set_key {α : Type} (n : NodeBase α) (k : String) : NodeBase α :=
  { n with key := some k }

/-- Python `NodeBase.set_version`. -/
def NodeBase.set_version {α : Type} (n : NodeBase α) (v : String) : NodeBase α :=
  { n with version := some v }

/- ---------------------------------------------------------------- -/
/- ChainHelper (src/chain/chain_helper.py)                           -/
/- ---------------------------------------------------------------- -/

/-- State of a `ChainHelper` object; fields mirror `__init__` in order.
The hooked logger callback is opaque, so the `logger` slot records only
whether one is installed. -/
structure ChainHelper (α : Type) where
  nodes : List (NodeBase α)
  is_event : Bool
  do_debug : Bool
  logger : Option Unit

/-- Python `ChainHelper.__init__`: empty node list, no logger; `toggle_debug` is
invoked with the constructor argument, so `do_debug` ends up equal to it. -/
def ChainHelper.new (α : Type) (is_event do_debug : Bool) : ChainHelper α :=
  ⟨[], is_event, do_debug, none⟩

/-- Python `ChainHelper.toggle_debug` (returns self). -/
def ChainHelper.toggle_debug {α : Type} (c : ChainHelper α) (d : Bool) : ChainHelper α :=
  { c with do_debug := d }

/-- Python `ChainHelper.hook_logger`: installs a (opaque) callback. -/
def ChainHelper.hook_logger {α : Type} (c : ChainHelper α) : ChainHelper α :=
  { c with logger := some () }

/-- Python `ChainHelper.get_node_list`: key/version pairs of the linked nodes,
in link order. -/
def ChainHelper.get_node_list {α : Type} (c : ChainHelper α) :
    List (Option String × Option String) :=
  c.nodes.map (fun n => (n.get_key, n.get_version))

/-- Python `ChainHelper.link_node`: reject invalid nodes; in event mode replace the
whole list with a singleton; otherwise append.  Returns self in all cases. -/
def ChainHelper.link_node {α : Type} (c : ChainHelper α) (node : NodeBase α) :
    ChainHelper α :=
  if !node.is_valid then
    c
  else if c.is_event then
    { c with nodes := [node] }
  else
    { c with nodes := c.nodes ++ [node] }

/-- Python `ChainHelper.log`: forwards the message when a callback is installed.
The result is the list of messages delivered to the callback. -/
def ChainHelper.log {α : Type} (c : ChainHelper α) (message : String) : List String :=
  if c.logger.isSome then [message] else []

/-- Observable outcome of one `traverse` call: the Python boolean return,
the dispatch state afterwards, and the indices (in `enumerate` order) of the
nodes whose `process` was invoked, in invocation order. -/
structure TraverseResult (α : Type) where
  ok : Bool
  dispatch : DispatchBase α
  invoked : List Nat

/-- The `for i, node in enumerate(self._nodes)` loop of `traverse`:
`is_consumable` is the snapshot taken before the loop; after each
`node.process` call the loop breaks when the snapshot is true and the
dispatch is now consumed. -/
def traverseLoop {α : Type} (is_consumable : Bool) :
    List (NodeBase α) → Nat → DispatchBase α → DispatchBase α × List Nat
  | [], _, d => (d, [])
  | node :: rest, idx, d =>
    let d' := node.process d
    if is_consumable && d'.is_consumed then
      (d', [idx])
    else
      let r := traverseLoop is_consumable rest (idx + 1) d'
      (r.1, idx :: r.2)

/-- Python `ChainHelper.traverse`: the three precondition gates (`len < 1` is the
empty list), then the event branch (process `self._nodes[0]` only) or the
enumerate loop, returning `True` at the end.  The `sender` defaulting at
lines 137-138 is opaque data and does not affect control flow. -/
def ChainHelper.traverse {α : Type} (c : ChainHelper α) (d : DispatchBase α) :
    TraverseResult α :=
  match c.nodes with
  | [] => ⟨false, d, []⟩
  | node :: rest =>
    if !d.is_valid then
      ⟨false, d, []⟩
    else if d.is_consumable && d.is_consumed then
      ⟨false, d, []⟩
    else if c.is_event then
      ⟨true, node.process d, [0]⟩
    else
      let r := traverseLoop d.is_consumable (node :: rest) 0 d
      ⟨true, r.1, r.2⟩

/- ---------------------------------------------------------------- -/
/- Derived forms used by the theorems                                -/
/- ---------------------------------------------------------------- -/

/-- Repeated `consume` calls: the dispatch state after `k` further calls. -/
def consumeIter {α : Type} (d : DispatchBase α) : Nat → DispatchBase α
  | 0 => d
  | k + 1 => ((consumeIter d k).consume).2

/-- A sequence of `set_result` calls, in call order. -/
def set_results {α : Type} (d : DispatchBase α) (vs : List α) : DispatchBase α :=
  vs.foldl DispatchBase.set_result d

/-- The dispatch operations a caller can perform (the `consume` boolean is
discarded; `make_valid` records an opaque timestamp). -/
inductive DispatchOp (α : Type) where
  | consumeOp
  | setResultOp (v : α)
  | makeConsumableOp
  | makeStatefulOp
  | makeValidOp (t : Nat)

/-- Apply one dispatch operation to a dispatch state. -/
def applyOp {α : Type} (d : DispatchBase α) : DispatchOp α → DispatchBase α
  | .consumeOp => (d.consume).2
  | .setResultOp v => d.set_result v
  | .makeConsumableOp => d.make_consumable
  | .makeStatefulOp => d.make_stateful
  | .makeValidOp t => d.make_valid t

/-- Apply a sequence of dispatch operations, left to right. -/
def applyOps {α : Type} (d : DispatchBase α) (ops : List (DispatchOp α)) : DispatchBase α :=
  ops.foldl applyOp d

/-- The documented dispatch invariants: consumed implies consumable, and the
results collection has length at most one while the dispatch is not
stateful. -/
def DispatchInvariant {α : Type} (d : DispatchBase α) : Prop :=
  (d.is_consumed = true → d.is_consumable = true)
  ∧ (d.is_stateful = false → d.results.length ≤ 1)

instance {α : Type} (d : DispatchBase α) : Decidable (DispatchInvariant d) := by
  unfold DispatchInvariant
  infer_instance

/- ---------------------------------------------------------------- -/
/- Helper lemmas                                                     -/
/- ---------------------------------------------------------------- -/

theorem set_result_is_stateful {α : Type} (d : DispatchBase α) (v : α) :
    (d.set_result v).is_stateful = d.is_stateful := by
  cases h : d.is_stateful <;> simp [DispatchBase.set_result, h]

theorem set_results_is_stateful {α : Type} (d : DispatchBase α) (vs : List α) :
    (set_results d vs).is_stateful = d.is_stateful := by
  induction vs generalizing d with
  | nil => rfl
  | cons v rest ih =>
    simp only [set_results, List.foldl_cons] at *
    rw [ih (d.set_result v), set_result_is_stateful]

theorem set_results_stateful_results {α : Type} (d : DispatchBase α) (vs : List α)
    (h : d.is_stateful = true) :
    (set_results d vs).results = d.results ++ vs := by
  induction vs generalizing d with
  | nil => simp [set_results]
  | cons v rest ih =>
    have h1 : (d.set_result v).is_stateful = true := by
      rw [set_result_is_stateful]; exact h
    have h2 : (d.set_result v).results = d.results ++ [v] := by
      simp [DispatchBase.set_result, h]
    simp only [set_results, List.foldl_cons] at *
    rw [ih (d.set_result v) h1, h2]
    simp

theorem consume_of_consumed {α : Type} (d : DispatchBase α) (h : d.is_consumed = true) :
    d.consume = (false, d) := by
  simp [DispatchBase.consume, h]

theorem consumeIter_consumed {α : Type} (d : DispatchBase α) (h : d.is_consumed = true) :
    ∀ k : Nat, consumeIter d k = d := by
  intro k
  induction k with
  | zero => rfl
  | succ j ih =>
    show ((consumeIter d j).consume).2 = d
    rw [ih, consume_of_consumed d h]

/- ---------------------------------------------------------------- -/
/- Concrete objects used by the witness theorems                     -/
/- ---------------------------------------------------------------- -/

def sK : String := "worker"

def sV : String := "1.2.3"

/-- A valid node whose `process` leaves the dispatch untouched. -/
def nodePass : NodeBase Nat :=
  ⟨some sK, some sV, fun d => d⟩

/-- A valid node whose `process` calls `dispatch.consume()`. -/
def nodeConsume : NodeBase Nat :=
  ⟨some sK, some sV, fun d => (d.consume).2⟩

/-- A valid node whose `process` makes the dispatch consumable and then
consumes it. -/
def nodeForceConsume : NodeBase Nat :=
  ⟨some sK, some sV, fun d => ((d.make_consumable).consume).2⟩

/-- A valid node whose `process` stores a result. -/
def nodeSetSeven : NodeBase Nat :=
  ⟨some sK, some sV, fun d => d.set_result 7⟩

/-- An invalid node (no key). -/
def nodeInvalid : NodeBase Nat :=
  ⟨none, some sV, fun d => d⟩

/-- A valid, non-consumable, non-stateful dispatch. -/
def dValid : DispatchBase Nat :=
  ⟨false, false, false, [], true, some 5⟩

/-- A valid, consumable, not-yet-consumed dispatch. -/
def dValidConsumable : DispatchBase Nat :=
  ⟨true, false, false, [], true, some 5⟩

/-- A valid, consumable, already-consumed dispatch. -/
def dConsumed : DispatchBase Nat :=
  ⟨true, false, true, [], true, some 5⟩

/-- A valid, stateful dispatch with no results yet. -/
def dStateful : DispatchBase Nat :=
  ⟨false, true, false, [], true, some 5⟩

/- ---------------------------------------------------------------- -/
/- C6: consume semantics                                             -/
/- ---------------------------------------------------------------- -/

/-- C6: `consume()` returns true and sets `isConsumed` if and only if the
dispatch is consumable and not already consumed; otherwise it returns false
and changes no state; after a successful call, `isConsumed` stays true and
every later `consume()` call returns false without changing the state. -/
theorem consume_spec {α : Type} (d : DispatchBase α) :
    ((d.consume).1 = true ↔ (d.is_consumable = true ∧ d.is_consumed = false))
    ∧ ((d.consume).1 = true → (d.consume).2 = { d with is_consumed := true })
    ∧ ((d.consume).1 = false → (d.consume).2 = d)
    ∧ ((d.consume).1 = true → ∀ k : Nat,
        consumeIter (d.consume).2 k = (d.consume).2
        ∧ ((consumeIter (d.consume).2 k).consume).1 = false
        ∧ (consumeIter (d.consume).2 k).is_consumed = true) := by
  have hiff : (d.consume).1 = true ↔ (d.is_consumable = true ∧ d.is_consumed = false) := by
    cases hc : d.is_consumable <;> cases hd : d.is_consumed <;>
      simp [DispatchBase.consume, hc, hd]
  have hset : (d.consume).1 = true → (d.consume).2 = { d with is_consumed := true } := by
    intro h1
    obtain ⟨hc, hd⟩ := hiff.mp h1
    simp [DispatchBase.consume, hc, hd]
  have hfail : (d.consume).1 = false → (d.consume).2 = d := by
    intro h1
    cases hc : d.is_consumable with
    | false => simp [DispatchBase.consume, hc]
    | true =>
      cases hd : d.is_consumed with
      | true => simp [DispatchBase.consume, hc, hd]
      | false =>
        have : (d.consume).1 = true := hiff.mpr ⟨hc, hd⟩
        rw [h1] at this
        exact absurd this (by simp)
  refine ⟨hiff, hset, hfail, ?_⟩
  intro h1 k
  have h2 : (d.consume).2.is_consumed = true := by
    rw [hset h1]
  have h3 := consumeIter_consumed (d.consume).2 h2 k
  refine ⟨h3, ?_, ?_⟩
  · rw [h3, consume_of_consumed _ h2]
  · rw [h3]
    exact h2

/-- C6 witness: the consumable dispatch is consumed exactly once; two calls
later `consume` still returns false and `isConsumed` is still true. -/
theorem consume_spec_witness :
    ((dValidConsumable.consume).1 = true)
    ∧ ((consumeIter (dValidConsumable.consume).2 2).consume).1 = false
    ∧ (consumeIter (dValidConsumable.consume).2 2).is_consumed = true := by
  have h := consume_spec dValidConsumable
  have h1 : (dValidConsumable.consume).1 = true := h.1.mpr ⟨rfl, rfl⟩
  exact ⟨h1, (h.2.2.2 h1 2).2.1, (h.2.2.2 h1 2).2.2⟩

/- ---------------------------------------------------------------- -/
/- C7: set_result / get_results semantics                            -/
/- ---------------------------------------------------------------- -/

/-- C7: on a non-stateful dispatch, any sequence of one or more `setResult`
calls leaves exactly one stored result, the last value set; on a stateful
dispatch with no prior results, `N` calls store all `N` values in call
order; and `getResults` returns the `None` sentinel exactly when
`numResults` is zero. -/
theorem set_result_spec {α : Type} (d : DispatchBase α) (vs : List α) (v : α) :
    (d.is_stateful = false →
      (set_results d (vs ++ [v])).num_results = 1
      ∧ (set_results d (vs ++ [v])).results = [v])
    ∧ (d.is_stateful = true → d.results = [] →
      (set_results d vs).num_results = vs.length
      ∧ (set_results d vs).results = vs)
    ∧ (d.get_results = none ↔ d.num_results = 0) := by
  refine ⟨?_, ?_, ?_⟩
  · intro hs
    have h1 : set_results d (vs ++ [v]) = (set_results d vs).set_result v := by
      simp [set_results, List.foldl_append]
    have h2 : (set_results d vs).is_stateful = false := by
      rw [set_results_is_stateful]
      exact hs
    have h3 : (set_results d vs).set_result v
        = { set_results d vs with results := [v] } := by
      simp [DispatchBase.set_result, h2]
    rw [h1, h3]
    exact ⟨rfl, rfl⟩
  · intro hs hr
    have h1 := set_results_stateful_results d vs hs
    rw [hr] at h1
    simp only [List.nil_append] at h1
    exact ⟨by simp [DispatchBase.num_results, h1], h1⟩
  · cases hr : d.results with
    | nil => simp [DispatchBase.get_results, DispatchBase.num_results, hr]
    | cons x xs => simp [DispatchBase.get_results, DispatchBase.num_results, hr]

/-- C7 witness: three stateful calls store `[1, 2, 3]`; three non-stateful
calls on the plain valid dispatch leave only the last value `30`. -/
theorem set_result_spec_witness :
    ((set_results dStateful [1, 2, 3]).num_results = 3
      ∧ (set_results dStateful [1, 2, 3]).results = [1, 2, 3])
    ∧ (set_results dValid ([10, 20] ++ [30])).results = [30] := by
  have h1 := (set_result_spec dStateful [1, 2, 3] 0).2.1 rfl rfl
  have h2 := (set_result_spec dValid [10, 20] 30).1 rfl
  exact ⟨⟨h1.1, h1.2⟩, h2.2⟩

/- ---------------------------------------------------------------- -/
/- C8: dispatch invariants preserved by every operation sequence     -/
/- ---------------------------------------------------------------- -/

theorem applyOp_invariant {α : Type} (d : DispatchBase α) (op : DispatchOp α)
    (h : DispatchInvariant d) : DispatchInvariant (applyOp d op) := by
  obtain ⟨h1, h2⟩ := h
  cases op with
  | consumeOp =>
    show DispatchInvariant (d.consume).2
    cases hc : d.is_consumable with
    | false =>
      have he : (d.consume).2 = d := by simp [DispatchBase.consume, hc]
      rw [he]
      exact ⟨h1, h2⟩
    | true =>
      cases hd : d.is_consumed with
      | true =>
        have he : (d.consume).2 = d := by simp [DispatchBase.consume, hc, hd]
        rw [he]
        exact ⟨h1, h2⟩
      | false =>
        have he : (d.consume).2 = { d with is_consumed := true } := by
          simp [DispatchBase.consume, hc, hd]
        rw [he]
        exact ⟨fun _ => hc, h2⟩
  | setResultOp v =>
    show DispatchInvariant (d.set_result v)
    cases hs : d.is_stateful with
    | false =>
      have he : d.set_result v = { d with results := [v] } := by
        simp [DispatchBase.set_result, hs]
      rw [he]
      exact ⟨h1, fun _ => by simp⟩
    | true =>
      have he : d.set_result v = { d with results := d.results ++ [v] } := by
        simp [DispatchBase.set_result, hs]
      rw [he]
      refine ⟨h1, fun hcon => ?_⟩
      rw [show ({ d with results := d.results ++ [v] } : DispatchBase α).is_stateful
          = d.is_stateful from rfl, hs] at hcon
      exact absurd hcon (by simp)
  | makeConsumableOp =>
    exact ⟨fun _ => rfl, h2⟩
  | makeStatefulOp =>
    refine ⟨h1, fun hcon => ?_⟩
    simp [applyOp, DispatchBase.make_stateful] at hcon
  | makeValidOp t =>
    exact ⟨h1, h2⟩

/-- C8: every sequence of dispatch operations (consume, setResult,
makeConsumable, makeStateful, makeValid) preserves the invariant that a
consumed dispatch is consumable and that a non-stateful dispatch holds at
most one result. -/
theorem dispatch_invariant_preserved {α : Type} (d : DispatchBase α)
    (ops : List (DispatchOp α)) (h : DispatchInvariant d) :
    DispatchInvariant (applyOps d ops) := by
  induction ops generalizing d with
  | nil => exact h
  | cons op rest ih =>
    show DispatchInvariant (List.foldl applyOp (applyOp d op) rest)
    exact ih (applyOp d op) (applyOp_invariant d op h)

/-- C8 witness: a fresh dispatch run through a mixed operation sequence still
satisfies the invariant. -/
theorem dispatch_invariant_preserved_witness :
    DispatchInvariant (applyOps (DispatchBase.new Nat)
      [DispatchOp.makeConsumableOp, DispatchOp.consumeOp, DispatchOp.setResultOp 5,
       DispatchOp.makeStatefulOp, DispatchOp.setResultOp 6, DispatchOp.makeValidOp 9]) :=
  dispatch_invariant_preserved (DispatchBase.new Nat) _ (by decide)

/- ---------------------------------------------------------------- -/
/- C5: link_node semantics                                           -/
/- ---------------------------------------------------------------- -/

/-- C5: linking an invalid node changes nothing; linking a valid node into an
event chain replaces the node sequence with a singleton; linking a valid
node into an ordered chain appends it (duplicates permitted); the returned
chain keeps all other fields, in every case. -/
theorem link_node_spec {α : Type} (c : ChainHelper α) (n : NodeBase α) :
    (n.is_valid = false → c.link_node n = c)
    ∧ (n.is_valid = true → c.is_event = true → (c.link_node n).nodes = [n])
    ∧ (n.is_valid = true → c.is_event = false → (c.link_node n).nodes = c.nodes ++ [n])
    ∧ ((c.link_node n).is_event = c.is_event
        ∧ (c.link_node n).do_debug = c.do_debug
        ∧ (c.link_node n).logger = c.logger) := by
  cases hv : n.is_valid <;> cases he : c.is_event <;>
    simp [ChainHelper.link_node, hv, he]

/-- C5 witness: an event chain keeps only the newly linked valid node, and an
invalid node is silently rejected. -/
theorem link_node_spec_witness :
    ((⟨[nodePass], true, false, none⟩ : ChainHelper Nat).link_node nodeSetSeven).nodes
      = [nodeSetSeven]
    ∧ (⟨[nodePass], false, false, none⟩ : ChainHelper Nat).link_node nodeInvalid
      = ⟨[nodePass], false, false, none⟩ :=
  ⟨(link_node_spec ⟨[nodePass], true, false, none⟩ nodeSetSeven).2.1 rfl rfl,
   (link_node_spec ⟨[nodePass], false, false, none⟩ nodeInvalid).1 rfl⟩

/- ---------------------------------------------------------------- -/
/- C1: traverse precondition gates                                   -/
/- ---------------------------------------------------------------- -/

/-- C1: `traverse` returns false exactly when the node list is empty, the
dispatch is invalid, or the dispatch is consumable and already consumed; in
those cases no node is invoked and the dispatch is unchanged; on every other
input it returns true. -/
theorem traverse_preconditions {α : Type} (c : ChainHelper α) (d : DispatchBase α) :
    ((c.traverse d).ok = false ↔
      (c.nodes = [] ∨ d.is_valid = false
        ∨ (d.is_consumable = true ∧ d.is_consumed = true)))
    ∧ ((c.traverse d).ok = false →
        (c.traverse d).invoked = [] ∧ (c.traverse d).dispatch = d)
    ∧ ((c.nodes ≠ [] ∧ d.is_valid = true
        ∧ ¬(d.is_consumable = true ∧ d.is_consumed = true)) →
        (c.traverse d).ok = true) := by
  obtain ⟨ns, ie, dbg, lg⟩ := c
  cases ns with
  | nil => simp [ChainHelper.traverse]
  | cons n rest =>
    cases hv : d.is_valid with
    | false => simp [ChainHelper.traverse, hv]
    | true =>
      cases hc : d.is_consumable <;> cases hd : d.is_consumed <;> cases ie <;>
        simp [ChainHelper.traverse, hv, hc, hd]

/-- C1 witness: a one-node chain with a valid, non-consumable dispatch
passes the precondition gates. -/
theorem traverse_preconditions_witness :
    (ChainHelper.traverse ⟨[nodePass], false, false, none⟩ dValid).ok = true :=
  (traverse_preconditions ⟨[nodePass], false, false, none⟩ dValid).2.2
    ⟨by simp, rfl, by simp [dValid]⟩

/- ---------------------------------------------------------------- -/
/- C2: consumption short-circuit                                     -/
/- ---------------------------------------------------------------- -/

/-- C2: on a non-event chain [A, B, C] with a valid, consumable, unconsumed
dispatch, if A's `process` leaves the dispatch consumed then only A is
invoked and `traverse` returns true. -/
theorem traverse_consume_short_circuit {α : Type} (A B C : NodeBase α) (dbg : Bool)
    (lg : Option Unit) (d : DispatchBase α) (hv : d.is_valid = true)
    (hc : d.is_consumable = true) (hnc : d.is_consumed = false)
    (hA : (A.process d).is_consumed = true) :
    (ChainHelper.traverse ⟨[A, B, C], false, dbg, lg⟩ d).invoked = [0]
    ∧ (ChainHelper.traverse ⟨[A, B, C], false, dbg, lg⟩ d).ok = true := by
  simp [ChainHelper.traverse, traverseLoop, hv, hc, hnc, hA]

/-- C2 witness: with a consuming first node, only index 0 is invoked. -/
theorem traverse_consume_short_circuit_witness :
    (ChainHelper.traverse ⟨[nodeConsume, nodeSetSeven, nodePass], false, false, none⟩
      dValidConsumable).invoked = [0]
    ∧ (ChainHelper.traverse ⟨[nodeConsume, nodeSetSeven, nodePass], false, false, none⟩
      dValidConsumable).ok = true :=
  traverse_consume_short_circuit nodeConsume nodeSetSeven nodePass false none
    dValidConsumable rfl rfl rfl rfl

/- ---------------------------------------------------------------- -/
/- C3: full traversal of a non-consumable dispatch                   -/
/- ---------------------------------------------------------------- -/

/-- C3: on a non-event chain [A, B, C] with a valid, non-consumable
dispatch, every node is invoked exactly once in link order and `traverse`
returns true; the final dispatch state is the composition of the three
`process` calls. -/
theorem traverse_non_consumable_all_nodes {α : Type} (A B C : NodeBase α) (dbg : Bool)
    (lg : Option Unit) (d : DispatchBase α) (hv : d.is_valid = true)
    (hc : d.is_consumable = false) :
    (ChainHelper.traverse ⟨[A, B, C], false, dbg, lg⟩ d).invoked = [0, 1, 2]
    ∧ (ChainHelper.traverse ⟨[A, B, C], false, dbg, lg⟩ d).ok = true
    ∧ (ChainHelper.traverse ⟨[A, B, C], false, dbg, lg⟩ d).dispatch
      = C.process (B.process (A.process d)) := by
  simp [ChainHelper.traverse, traverseLoop, hv, hc]

/-- C3 witness: three nodes each run once, in order, on the valid
non-consumable dispatch. -/
theorem traverse_non_consumable_all_nodes_witness :
    (ChainHelper.traverse ⟨[nodePass, nodeSetSeven, nodePass], false, false, none⟩
      dValid).invoked = [0, 1, 2]
    ∧ (ChainHelper.traverse ⟨[nodePass, nodeSetSeven, nodePass], false, false, none⟩
      dValid).ok = true :=
  ⟨(traverse_non_consumable_all_nodes nodePass nodeSetSeven nodePass false none
      dValid rfl rfl).1,
   (traverse_non_consumable_all_nodes nodePass nodeSetSeven nodePass false none
      dValid rfl rfl).2.1⟩

/- ---------------------------------------------------------------- -/
/- C4: event-mode traversal                                          -/
/- ---------------------------------------------------------------- -/

/-- C4: on an event chain whose preconditions hold, `traverse` invokes
`process` on the single linked node only and returns true unconditionally;
no consumption check is performed, so the result does not depend on whether
that node consumed the dispatch. -/
theorem traverse_event_mode {α : Type} (c : ChainHelper α) (n : NodeBase α)
    (rest : List (NodeBase α)) (d : DispatchBase α) (he : c.is_event = true)
    (hn : c.nodes = n :: rest) (hv : d.is_valid = true)
    (hcc : ¬(d.is_consumable = true ∧ d.is_consumed = true)) :
    c.traverse d = ⟨true, n.process d, [0]⟩ := by
  obtain ⟨ns, ie, dbg, lg⟩ := c
  simp only at he hn
  subst he
  subst hn
  have hcd : (d.is_consumable && d.is_consumed) = false := by
    cases hc : d.is_consumable <;> cases hd : d.is_consumed <;> simp_all
  simp [ChainHelper.traverse, hv, hcd]

/-- C4 witness: an event chain whose only node consumes the dispatch still
returns true after invoking just that node. -/
theorem traverse_event_mode_witness :
    ChainHelper.traverse ⟨[nodeConsume], true, false, none⟩ dValidConsumable
      = ⟨true, nodeConsume.process dValidConsumable, [0]⟩ :=
  traverse_event_mode ⟨[nodeConsume], true, false, none⟩ nodeConsume []
    dValidConsumable rfl rfl rfl (by simp [dValidConsumable])

/- ---------------------------------------------------------------- -/
/- C10: the consumable flag is snapshotted before the loop           -/
/- ---------------------------------------------------------------- -/

theorem traverseLoop_not_consumable_invoked {α : Type} (nodes : List (NodeBase α))
    (idx : Nat) (d : DispatchBase α) :
    (traverseLoop false nodes idx d).2 = List.range' idx nodes.length := by
  induction nodes generalizing idx d with
  | nil => simp [traverseLoop]
  | cons n rest ih => simp [traverseLoop, List.range'_succ, ih]

/-- C10: `traverse` snapshots `isConsumable` before the loop, so a dispatch
that is not consumable at the start is delivered to every linked node, even
if some node makes it consumable and consumes it mid-traversal. -/
theorem traverse_consumable_snapshot {α : Type} (c : ChainHelper α) (d : DispatchBase α)
    (he : c.is_event = false) (hn : c.nodes ≠ []) (hv : d.is_valid = true)
    (hc : d.is_consumable = false) :
    (c.traverse d).invoked = List.range c.nodes.length
    ∧ (c.traverse d).ok = true := by
  obtain ⟨ns, ie, dbg, lg⟩ := c
  simp only at he hn ⊢
  subst he
  cases ns with
  | nil => exact absurd rfl hn
  | cons n rest =>
    have h1 : (d.is_consumable && d.is_consumed) = false := by
      rw [hc]
      rfl
    constructor
    · simp [ChainHelper.traverse, hv, h1, hc, traverseLoop_not_consumable_invoked,
        List.range_eq_range']
    · simp [ChainHelper.traverse, hv, h1]

/-- C10 witness: the first node makes the dispatch consumable and consumes
it, yet both nodes are still invoked. -/
theorem traverse_consumable_snapshot_witness :
    (ChainHelper.traverse ⟨[nodeForceConsume, nodePass], false, false, none⟩
      dValid).invoked = [0, 1]
    ∧ (ChainHelper.traverse ⟨[nodeForceConsume, nodePass], false, false, none⟩
      dValid).ok = true := by
  have h := traverse_consumable_snapshot
    ⟨[nodeForceConsume, nodePass], false, false, none⟩ dValid rfl (by simp) rfl rfl
  refine ⟨?_, h.2⟩
  rw [h.1]
  rfl

/- ---------------------------------------------------------------- -/
/- C9: log forwarding                                                -/
/- ---------------------------------------------------------------- -/

def sMsg : String := "debug message"

/-- A chain with debug disabled but a logger hooked. -/
def chainDebugOffLogger : ChainHelper Nat :=
  ⟨[], false, false, some ()⟩

/-- C9 counterexample: with debug disabled and a logger hooked, `log` still
forwards the message, refuting the claim that forwarding happens only when
debug is enabled and a logger is hooked. -/
theorem log_claim_counterexample :
    ¬ ((ChainHelper.log chainDebugOffLogger sMsg ≠ [])
        ↔ (chainDebugOffLogger.do_debug = true
            ∧ chainDebugOffLogger.logger.isSome = true)) := by
  intro h
  have h1 : ChainHelper.log chainDebugOffLogger sMsg ≠ [] := by
    simp [ChainHelper.log, chainDebugOffLogger]
  have h2 := h.mp h1
  simp [chainDebugOffLogger] at h2

/-- C9 (amended): `log` forwards the message to the hooked logger callback
if and only if a logger is hooked, independently of the debug flag (the
debug check is performed by the callers before they invoke `log`); otherwise
it is a no-op, and it never raises (it is a total function). -/
theorem log_spec {α : Type} (c : ChainHelper α) (message : String) :
    (c.log message = [message] ↔ c.logger.isSome = true)
    ∧ (c.log message = [] ↔ c.logger.isSome = false) := by
  cases h : c.logger <;> simp [ChainHelper.log, h]

end StoicChain
